import Mathlib

set_option maxRecDepth 4000

/-! Verification development for the DeepSVDD estimator
(pyod/models/deep_svdd.py, class DeepSVDD).

Numeric values are modelled as rationals.  The external collaborators the
class delegates to (the TensorFlow networks, the sklearn scaler, the numpy
shuffle) are modelled as explicit function parameters bundled in a `Collab`
record: the estimator only ever uses them as black boxes, and every theorem
below quantifies over them (witnesses instantiate them with concrete
functions). -/

/-- Fitted per-feature standardization state (the sklearn StandardScaler
object): a black box to the estimator, which only stores it and hands it back to
the transform function. -/
structure Scaler where
  mean_ : List ℚ
  scale_ : List ℚ
deriving DecidableEq

/-- Modelled from the spec: the shared input-shape validator collaborator
(sklearn check_array): accepts an array and returns a validated 2D numeric
array, or fails with a shape error (at least one sample, at least one
feature, rectangular rows). -/
def check_array (X : List (List ℚ)) : Except String (List (List ℚ)) :=
  if X.length = 0 then Except.error "Found array with 0 sample(s)"
  else if (X.headD []).length = 0 then Except.error "Found array with 0 feature(s)"
  else if X.all (fun r => r.length = (X.headD []).length) then Except.ok X
  else Except.error "Found array with inhomogeneous row lengths"

/-- Modelled from the spec: the shared parameter-range checker
(check_parameter from the pyod estimator utilities, whose source is not
included under src): given a value and inclusive/exclusive bounds it
accepts exactly the values inside the range.  The constructor calls it with
an inclusive left bound and an exclusive right bound.  Returns true when
the parameter is in range (the Python helper raises a ValueError
otherwise). -/
def check_parameter (param low high : ℚ) (include_left include_right : Bool) : Bool :=
  (if include_left then decide (low ≤ param) else decide (low < param)) &&
  (if include_right then decide (param ≤ high) else decide (param < high))

/-- External collaborators used by fit and decision_function, passed
explicitly at each call:
 - scalerFit / rowTransform model the sklearn scaler (fit on the training
   matrix, then a fixed row-wise transform applied to any row);
 - shuffle models the outcome of np.random.shuffle for this call, drawn
   from the process-global numpy generator (the source never seeds numpy
   from random_state);
 - centerPredict models the forward pass of the untrained center-pass
   network (model built with c = 0), driven by the TensorFlow generator;
 - train models the TensorFlow training run: given the training matrix it
   produces the trained model as a per-row scoring function, likewise
   driven by the TensorFlow generator (which random_state seeds). -/
structure Collab where
  scalerFit : List (List ℚ) → Scaler
  rowTransform : Scaler → List ℚ → List ℚ
  shuffle : List (List ℚ) → List (List ℚ)
  centerPredict : List (List ℚ) → List (List ℚ)
  train : List (List ℚ) → List ℚ → ℚ

/-- The DeepSVDD estimator object: configuration fields stored by
__init__ followed by the attributes created by fit (all `none` before the
first successful fit).  Hyperparameters that are only forwarded to
TensorFlow (activations, optimizer, epochs, batch size, callbacks, the l2
strength, verbosity) do not influence the verified claims and are absorbed
into the Collab functions; threshold_ and labels_ are produced by the
external BaseDetector post-processing collaborator. -/
structure DState where
  c : Option (List ℚ)
  use_ae : Bool
  hidden_neurons : List Nat
  hidden_neurons_ : List Nat
  dropout_rate : ℚ
  validation_data : Option (List (List ℚ) × List ℚ)
  validation_size : Option ℚ
  preprocessing : Bool
  random_state : Option Int
  scaler_ : Option Scaler
  n_samples_ : Option Nat
  n_features_ : Option Nat
  model_ : Option (List ℚ → ℚ)
  history_ : Option Unit
  decision_scores_ : Option (List ℚ)

/-- Constructor arguments of DeepSVDD.__init__ observed by the claims,
with the default values of the source.  contamination is validated by the
external BaseDetector base class and omitted. -/
structure Params where
  c : Option (List ℚ) := none
  use_ae : Bool := false
  hidden_neurons : Option (List Nat) := none
  dropout_rate : ℚ := 1/5
  validation_data : Option (List (List ℚ) × List ℚ) := none
  validation_size : Option ℚ := some (1/10)
  preprocessing : Bool := true
  random_state : Option Int := none

/-- DeepSVDD.__init__ (source lines 143-181): store the configuration,
fill in the default hidden widths, clear validation_size when a validation
dataset is supplied, and finally range-check dropout_rate in [0, 1).
tf.random.set_seed is a side effect on the external TensorFlow generator
and is reflected in which Collab functions a caller later passes to fit. -/
def DeepSVDD_init (p : Params) : Except String DState :=
  let hidden := match p.hidden_neurons with
    | none => [64, 32]
    | some h => h
  let vsize := if p.validation_data.isSome then none else p.validation_size
  if check_parameter p.dropout_rate 0 1 true false then
    Except.ok
      { c := p.c, use_ae := p.use_ae, hidden_neurons := hidden,
        hidden_neurons_ := hidden, dropout_rate := p.dropout_rate,
        validation_data := p.validation_data, validation_size := vsize,
        preprocessing := p.preprocessing, random_state := p.random_state,
        scaler_ := none, n_samples_ := none, n_features_ := none,
        model_ := none, history_ := none, decision_scores_ := none }
  else Except.error "dropout_rate is out of range"

/-- np.min on a list of layer widths (all uses are on non-empty lists). -/
def npMin : List Nat → Nat
  | [] => 0
  | x :: xs => xs.foldl Nat.min x

/-- np.sum(out_, axis=0): column-wise sum of a matrix. -/
def colSum : List (List ℚ) → List ℚ
  | [] => []
  | [r] => r
  | r :: rs => List.zipWith (fun a b => a + b) r (colSum rs)

/-- The raw mean embedding computed inside DeepSVDD._init_c before the
clamping assignments (out_ summed over axis 0 and divided by the number of
predicted rows). -/
def rawCenter (out0 : List (List ℚ)) : List ℚ :=
  (colSum out0).map (fun v => v / (out0.length : ℚ))

/-- First masked assignment in _init_c, applied to the whole vector:
self.c[(abs(self.c) < eps) & (self.c < 0)] = -eps. -/
def clampNeg (eps c : ℚ) : ℚ := if |c| < eps ∧ c < 0 then -eps else c

/-- Second masked assignment in _init_c, applied to the vector produced by
the first one: self.c[(abs(self.c) < eps) & (self.c > 0)] = eps. -/
def clampPos (eps c : ℚ) : ℚ := if |c| < eps ∧ 0 < c then eps else c

/-- DeepSVDD._init_c (source lines 183-196): predict the embeddings of the
training matrix with the center-pass network, average them over the
samples, then perform the two masked assignments in sequence.  The second
mask is evaluated on the vector already updated by the first one, exactly
as the two in-place numpy assignments do. -/
def init_c (predict : List (List ℚ) → List (List ℚ)) (X_norm : List (List ℚ))
    (eps : ℚ) : List ℚ :=
  ((rawCenter (predict X_norm)).map (clampNeg eps)).map (clampPos eps)

/-- fit lines 272-281: optional standardization.  Returns the updated
state, the training matrix X_norm, and the matrix used for the final
scoring step (the frozen scaler applied to the original unshuffled X;
a plain copy of X when preprocessing is off).  When preprocessing is on,
the freshly fitted scaler is stored and the already-validated
validation_data features are replaced by their standardized transform. -/
def preprocessStage (co : Collab) (st : DState) (X : List (List ℚ)) :
    DState × List (List ℚ) × List (List ℚ) :=
  if st.preprocessing then
    let s := co.scalerFit X
    ({ st with scaler_ := some s,
               validation_data :=
                 match st.validation_data with
                 | some (XV, yv) => some (XV.map (co.rowTransform s), yv)
                 | none => none },
     X.map (co.rowTransform s), X.map (co.rowTransform s))
  else (st, X, X)

/-- fit lines 282-285: shuffle the training matrix, but only when a
validation fraction is configured; the permutation comes from the
process-global numpy generator via the Collab record. -/
def shuffleStage (co : Collab) (st : DState) (Xn : List (List ℚ)) :
    List (List ℚ) :=
  match st.validation_size with
  | some _ => co.shuffle Xn
  | none => Xn

/-- fit lines 291-294: resolve the center only when c is unset, using the
forward pass of the untrained network on the (possibly shuffled) training
matrix, with the default eps = 0.1. -/
def centerStage (co : Collab) (st : DState) (Xn : List (List ℚ)) : DState :=
  match st.c with
  | none => { st with c := some (init_c co.centerPredict Xn (1/10)) }
  | some _ => st

/-- fit lines 296-313: train the final network on the training matrix,
then score the standardized original rows one by one. -/
def trainStage (co : Collab) (st : DState) (Xn Xscore : List (List ℚ)) :
    DState :=
  let model := co.train Xn
  { st with model_ := some model, history_ := some (),
            decision_scores_ := some (Xscore.map model) }

/-- Error message of the hidden-width configuration check (source lines
288-290). -/
def neuronsMsg : String :=
  "The number of neurons should not exceed the number of features"

/-- The estimator state as left visible by a fit call that raises the
hidden-width ValueError: sample and feature counts already set and the
preprocessing stage already performed. -/
def fitErrState (co : Collab) (st : DState) (X : List (List ℚ)) : DState :=
  (preprocessStage co
    { st with n_samples_ := some X.length,
              n_features_ := some (X.headD []).length } X).1

/-- The estimator state produced by a successful fit call: counts set,
preprocessing done, training matrix shuffled when a validation fraction is
configured, center resolved when unset, network trained and the original
rows scored. -/
def fitSuccState (co : Collab) (st : DState) (X : List (List ℚ)) : DState :=
  let pr := preprocessStage co
    { st with n_samples_ := some X.length,
              n_features_ := some (X.headD []).length } X
  let Xn := shuffleStage co pr.1 pr.2.1
  trainStage co (centerStage co pr.1 Xn) Xn pr.2.2

/-- DeepSVDD.fit after input validation (source lines 270-314).  Returns
the estimator state as mutated by the call, together with none on success
or some message when a ValueError is raised; in the error case the state
component is the object exactly as the raised exception leaves it
visible.  The hidden-width check reads self.hidden_neurons, self.use_ae
and the just-stored feature count, none of which the preprocessing stage
modifies. -/
def fitCore (co : Collab) (st : DState) (X : List (List ℚ)) :
    DState × Option String :=
  if npMin st.hidden_neurons > (X.headD []).length ∧ st.use_ae = true then
    (fitErrState co st X, some neuronsMsg)
  else
    (fitSuccState co st X, none)

/-- DeepSVDD.fit (source lines 243-314): validate X, validate the features
of the supplied validation data and store the validated pair back into the
validation_data field, then run the remaining pipeline. -/
def fit (co : Collab) (st : DState) (X0 : List (List ℚ)) :
    DState × Option String :=
  match check_array X0 with
  | Except.error e => (st, some e)
  | Except.ok X =>
    match st.validation_data with
    | some (XV0, yv) =>
      match check_array XV0 with
      | Except.error e => (st, some e)
      | Except.ok XV => fitCore co { st with validation_data := some (XV, yv) } X
    | none => fitCore co st X

/-- DeepSVDD.decision_function (source lines 316-344): check fitted state
first (sklearn check_is_fitted on model_ and history_), then validate the
input, standardize it with the frozen scaler when preprocessing is on, and
score each row with the trained model. -/
def decision_function (co : Collab) (st : DState) (X0 : List (List ℚ)) :
    Except String (List ℚ) :=
  match st.model_, st.history_ with
  | some model, some _ =>
    match check_array X0 with
    | Except.error e => Except.error e
    | Except.ok X =>
      if st.preprocessing then
        match st.scaler_ with
        | some s => Except.ok ((X.map (co.rowTransform s)).map model)
        | none => Except.error "AttributeError"
      else Except.ok (X.map model)
  | _, _ => Except.error "NotFittedError"

/-- The supplied validation features pass the shape validator (trivially
true when no validation data is configured). -/
def valChecked (st : DState) : Prop :=
  match st.validation_data with
  | none => True
  | some (XV, _) => check_array XV = Except.ok XV

/-- Fallback unfitted state (used only to make stOfInit total; every use
of stOfInit below is on parameters whose construction succeeds). -/
def unfittedFallback : DState :=
  { c := none, use_ae := false, hidden_neurons := [64, 32],
    hidden_neurons_ := [64, 32], dropout_rate := 1/5,
    validation_data := none, validation_size := some (1/10),
    preprocessing := true, random_state := none, scaler_ := none,
    n_samples_ := none, n_features_ := none, model_ := none,
    history_ := none, decision_scores_ := none }

/-- The state constructed by a successful DeepSVDD.__init__ call. -/
def stOfInit (p : Params) : DState :=
  match DeepSVDD_init p with
  | Except.ok st => st
  | Except.error _ => unfittedFallback

/-- A concrete scaler value used to instantiate the abstract collaborator
in witnesses. -/
def idScaler : Scaler := { mean_ := [], scale_ := [] }

/-- A concrete collaborator: identity scaler transform, identity shuffle,
identity center-pass prediction, and a trained model that scores a row by
its first entry. -/
def testCollab : Collab :=
  { scalerFit := fun _ => idScaler, rowTransform := fun _ r => r,
    shuffle := fun X => X, centerPredict := fun X => X,
    train := fun _ r => r.headD 0 }

/-- Default-constructed estimator state. -/
def st8 : DState := stOfInit {}

/-- A concrete two-row, one-feature training matrix. -/
def X8 : List (List ℚ) := [[1], [3]]


/-! Helper lemmas about the embedded operations. -/

theorem check_array_ok_elim (X Y : List (List ℚ))
    (h : check_array X = Except.ok Y) : Y = X := by
  unfold check_array at h
  split at h
  · simp at h
  · split at h
    · simp at h
    · split at h
      · simp_all
      · simp at h

/-- Eliminate a successful fit call: the input passed validation, the
validation data (if any) passed validation, and the call reduced to
fitCore on the unchanged state. -/
theorem fit_ok_elim (co : Collab) (st : DState) (X : List (List ℚ))
    (st' : DState) (h : fit co st X = (st', none)) :
    check_array X = Except.ok X ∧ valChecked st ∧
      fitCore co st X = (st', none) := by
  unfold fit at h
  cases hX : check_array X with
  | error e => rw [hX] at h; simp at h
  | ok X1 =>
    have hX1 : X1 = X := check_array_ok_elim _ _ hX
    subst hX1
    rw [hX] at h
    simp only at h
    cases hvd : st.validation_data with
    | none =>
      rw [hvd] at h
      simp only at h
      exact ⟨rfl, by simp [valChecked, hvd], h⟩
    | some p =>
      obtain ⟨XV0, yv⟩ := p
      rw [hvd] at h
      simp only at h
      cases hXV : check_array XV0 with
      | error e => rw [hXV] at h; simp at h
      | ok XV =>
        have hXV1 : XV = XV0 := check_array_ok_elim _ _ hXV
        subst hXV1
        rw [hXV] at h
        simp only at h
        have heta : { st with validation_data := some (XV, yv) } = st := by
          cases st
          simp_all
        rw [heta] at h
        exact ⟨rfl, by simp [valChecked, hvd, hXV], h⟩

/-- A successful fitCore call passed the hidden-width check and produced
the success state. -/
theorem fitCore_ok_elim (co : Collab) (st : DState) (X : List (List ℚ))
    (st' : DState) (h : fitCore co st X = (st', none)) :
    ¬(npMin st.hidden_neurons > (X.headD []).length ∧ st.use_ae = true) ∧
      st' = fitSuccState co st X := by
  unfold fitCore at h
  split at h
  · simp at h
  · next hc =>
    refine ⟨hc, ?_⟩
    injection h with h1 _
    exact h1.symm

/-- When the input and the configured validation data pass validation,
fit reduces to fitCore on the unchanged state. -/
theorem fit_eq_fitCore (co : Collab) (st : DState) (X : List (List ℚ))
    (hX : check_array X = Except.ok X) (hv : valChecked st) :
    fit co st X = fitCore co st X := by
  unfold fit
  rw [hX]
  simp only
  cases hvd : st.validation_data with
  | none => simp only
  | some p =>
    obtain ⟨XV0, yv⟩ := p
    have hXV : check_array XV0 = Except.ok XV0 := by
      have hv2 := hv
      unfold valChecked at hv2
      rw [hvd] at hv2
      exact hv2
    simp only
    rw [hXV]
    simp only
    have heta : { st with validation_data := some (XV0, yv) } = st := by
      cases st
      simp_all
    rw [heta]

/-- The training matrix used by a successful fit call: the standardized
training rows, shuffled when a validation fraction is configured. -/
def fitXn (co : Collab) (st : DState) (X : List (List ℚ)) : List (List ℚ) :=
  let pr := preprocessStage co
    { st with n_samples_ := some X.length,
              n_features_ := some (X.headD []).length } X
  shuffleStage co pr.1 pr.2.1

theorem fitSuccState_model (co : Collab) (st : DState) (X : List (List ℚ)) :
    (fitSuccState co st X).model_ = some (co.train (fitXn co st X)) := by
  obtain ⟨c0, ua, hn, hn2, dr, vd, vs, pp, rs, sc, ns, nf, mo, hi, ds⟩ := st
  cases pp <;> cases vs <;> cases c0 <;>
    simp [fitSuccState, fitXn, preprocessStage, shuffleStage, centerStage,
      trainStage]

theorem fitSuccState_history (co : Collab) (st : DState) (X : List (List ℚ)) :
    (fitSuccState co st X).history_ = some () := by
  obtain ⟨c0, ua, hn, hn2, dr, vd, vs, pp, rs, sc, ns, nf, mo, hi, ds⟩ := st
  cases pp <;> cases vs <;> cases c0 <;>
    simp [fitSuccState, fitXn, preprocessStage, shuffleStage, centerStage,
      trainStage]

theorem fitSuccState_preprocessing (co : Collab) (st : DState)
    (X : List (List ℚ)) :
    (fitSuccState co st X).preprocessing = st.preprocessing := by
  obtain ⟨c0, ua, hn, hn2, dr, vd, vs, pp, rs, sc, ns, nf, mo, hi, ds⟩ := st
  cases pp <;> cases vs <;> cases c0 <;>
    simp [fitSuccState, fitXn, preprocessStage, shuffleStage, centerStage,
      trainStage]

theorem fitSuccState_scaler (co : Collab) (st : DState) (X : List (List ℚ)) :
    (fitSuccState co st X).scaler_ =
      if st.preprocessing then some (co.scalerFit X) else st.scaler_ := by
  obtain ⟨c0, ua, hn, hn2, dr, vd, vs, pp, rs, sc, ns, nf, mo, hi, ds⟩ := st
  cases pp <;> cases vs <;> cases c0 <;>
    simp [fitSuccState, fitXn, preprocessStage, shuffleStage, centerStage,
      trainStage]

theorem fitSuccState_scores (co : Collab) (st : DState) (X : List (List ℚ)) :
    (fitSuccState co st X).decision_scores_ =
      some ((if st.preprocessing then X.map (co.rowTransform (co.scalerFit X))
             else X).map (co.train (fitXn co st X))) := by
  obtain ⟨c0, ua, hn, hn2, dr, vd, vs, pp, rs, sc, ns, nf, mo, hi, ds⟩ := st
  cases pp <;> cases vs <;> cases c0 <;>
    simp [fitSuccState, fitXn, preprocessStage, shuffleStage, centerStage,
      trainStage]

theorem fitSuccState_c (co : Collab) (st : DState) (X : List (List ℚ)) :
    (fitSuccState co st X).c =
      match st.c with
      | none => some (init_c co.centerPredict (fitXn co st X) (1/10))
      | some cv => some cv := by
  obtain ⟨c0, ua, hn, hn2, dr, vd, vs, pp, rs, sc, ns, nf, mo, hi, ds⟩ := st
  cases pp <;> cases vs <;> cases c0 <;>
    simp [fitSuccState, fitXn, preprocessStage, shuffleStage, centerStage,
      trainStage]

theorem fitSuccState_validation_data (co : Collab) (st : DState)
    (X : List (List ℚ)) :
    (fitSuccState co st X).validation_data =
      if st.preprocessing then
        match st.validation_data with
        | some (V, y) => some (V.map (co.rowTransform (co.scalerFit X)), y)
        | none => none
      else st.validation_data := by
  obtain ⟨c0, ua, hn, hn2, dr, vd, vs, pp, rs, sc, ns, nf, mo, hi, ds⟩ := st
  cases pp <;> cases vs <;> cases c0 <;>
    simp [fitSuccState, fitXn, preprocessStage, shuffleStage, centerStage,
      trainStage]

/-- C2: for every valid training array X, after a successful fit(X) the
fitted decision_scores_ exist, have length equal to the number of rows of
X in the original row order of X (the pre-fit shuffle does not affect the
score ordering), and equal decision_function recomputed on the same X
(exactly, in this rational model). -/
theorem fit_scores_match_decision_function (co : Collab) (st : DState)
    (X : List (List ℚ)) (st' : DState) (h : fit co st X = (st', none)) :
    ∃ s : List ℚ, st'.decision_scores_ = some s ∧ s.length = X.length ∧
      decision_function co st' X = Except.ok s := by
  obtain ⟨hX, hv, hcore⟩ := fit_ok_elim co st X st' h
  obtain ⟨hcond, hsucc⟩ := fitCore_ok_elim co st X st' hcore
  subst hsucc
  refine ⟨(if st.preprocessing then X.map (co.rowTransform (co.scalerFit X))
           else X).map (co.train (fitXn co st X)),
    fitSuccState_scores co st X, ?_, ?_⟩
  · by_cases hp : st.preprocessing <;> simp [hp]
  · unfold decision_function
    rw [fitSuccState_model, fitSuccState_history]
    simp only
    rw [hX]
    simp only
    rw [fitSuccState_preprocessing, fitSuccState_scaler]
    by_cases hp : st.preprocessing <;> simp [hp]

/-- The state produced by the concrete successful fit call used in
witnesses. -/
def stF2 : DState := (fit testCollab st8 X8).1

/-- Witness for C2 at a concrete collaborator, default-constructed
estimator and the two-row matrix X8. -/
theorem fit_scores_match_decision_function_witness :
    ∃ s : List ℚ, stF2.decision_scores_ = some s ∧ s.length = X8.length ∧
      decision_function testCollab stF2 X8 = Except.ok s :=
  fit_scores_match_decision_function testCollab st8 X8 stF2
    (by with_unfolding_all rfl)

/-- Index-wise description of the clamping in _init_c: the resolved
i-th coordinate of the resolved center is the two clamp masks applied in sequence to the
i-th coordinate of the raw mean embedding. -/
theorem init_c_getD (predict : List (List ℚ) → List (List ℚ))
    (Xn : List (List ℚ)) (eps : ℚ) (i : Nat)
    (hi : i < (rawCenter (predict Xn)).length) :
    (init_c predict Xn eps).getD i 0 =
      clampPos eps (clampNeg eps ((rawCenter (predict Xn)).getD i 0)) := by
  unfold init_c
  rw [List.getD_eq_getElem?_getD, List.getD_eq_getElem?_getD,
    List.getElem?_map, List.getElem?_map, List.getElem?_eq_getElem hi]
  simp

/-- C1 (amended): in center resolution with the default eps = 0.1, a raw
mean-embedding coordinate that is negative with absolute value below eps
becomes exactly -eps; a positive coordinate with absolute value below eps
becomes exactly +eps; a coordinate that is exactly zero is left at zero
(neither mask matches it); and a coordinate with absolute value at least
eps is left unchanged. -/
theorem init_c_clamping (predict : List (List ℚ) → List (List ℚ))
    (Xn : List (List ℚ)) (i : Nat)
    (hi : i < (rawCenter (predict Xn)).length) :
    (((rawCenter (predict Xn)).getD i 0 < 0 ∧
        |(rawCenter (predict Xn)).getD i 0| < 1/10 →
        (init_c predict Xn (1/10)).getD i 0 = -(1/10))) ∧
    ((0 < (rawCenter (predict Xn)).getD i 0 ∧
        |(rawCenter (predict Xn)).getD i 0| < 1/10 →
        (init_c predict Xn (1/10)).getD i 0 = 1/10)) ∧
    ((rawCenter (predict Xn)).getD i 0 = 0 →
        (init_c predict Xn (1/10)).getD i 0 = 0) ∧
    (1/10 ≤ |(rawCenter (predict Xn)).getD i 0| →
        (init_c predict Xn (1/10)).getD i 0 =
          (rawCenter (predict Xn)).getD i 0) := by
  rw [init_c_getD predict Xn (1/10) i hi]
  set r := (rawCenter (predict Xn)).getD i 0 with hr
  unfold clampNeg clampPos
  refine ⟨?_, ?_, ?_, ?_⟩
  · rintro ⟨h1, h2⟩
    rw [if_pos (show |r| < 1/10 ∧ r < 0 from ⟨h2, h1⟩),
      if_neg (show ¬(|(-(1/10):ℚ)| < 1/10 ∧ (0:ℚ) < -(1/10)) from by norm_num)]
  · rintro ⟨h1, h2⟩
    rw [if_neg (show ¬(|r| < 1/10 ∧ r < 0) from
        fun hb => absurd h1 (by linarith [hb.2])),
      if_pos (show |r| < 1/10 ∧ 0 < r from ⟨h2, h1⟩)]
  · intro h0
    rw [h0]
    norm_num
  · intro hge
    rw [if_neg (show ¬(|r| < 1/10 ∧ r < 0) from
        fun hb => absurd hge (not_le.mpr hb.1)),
      if_neg (show ¬(|r| < 1/10 ∧ 0 < r) from
        fun hb => absurd hge (not_le.mpr hb.1))]

/-- Witness for the amended C1 at a concrete negative small coordinate. -/
theorem init_c_clamping_witness :
    (init_c (fun x => x) [[-(1/20)]] (1/10)).getD 0 0 = -(1/10) :=
  (init_c_clamping (fun x => x) [[-(1/20)]] 0
      (by with_unfolding_all decide)).1
    ⟨by with_unfolding_all decide, by with_unfolding_all decide⟩

/-- C1 counterexample: a raw mean-embedding coordinate that is exactly
zero is left at zero by _init_c, not pushed to +eps as the documented
tie-break of the claim states. -/
theorem init_c_zero_counterexample :
    rawCenter ((fun x => x) [[(0:ℚ)]]) = [0] ∧
    (init_c (fun x => x) [[(0:ℚ)]] (1/10)).getD 0 0 = 0 ∧
    (init_c (fun x => x) [[(0:ℚ)]] (1/10)).getD 0 0 ≠ 1/10 := by
  refine ⟨?_, ?_, ?_⟩ <;> with_unfolding_all decide

/-- The shape validator never produces the hidden-width error message. -/
theorem check_array_error_ne (X : List (List ℚ)) (e : String)
    (h : check_array X = Except.error e) : e ≠ neuronsMsg := by
  unfold check_array at h
  split at h
  · injection h with h1
    subst h1
    with_unfolding_all decide
  · split at h
    · injection h with h1
      subst h1
      with_unfolding_all decide
    · split at h
      · simp at h
      · injection h with h1
        subst h1
        with_unfolding_all decide

/-- Eliminate a fit call that raised the hidden-width ValueError: the
input had passed validation, the check condition held, and the visible
state is the mutated error state. -/
theorem fit_neurons_err_elim (co : Collab) (st : DState)
    (X : List (List ℚ)) (st' : DState)
    (h : fit co st X = (st', some neuronsMsg)) :
    check_array X = Except.ok X ∧
      (npMin st.hidden_neurons > (X.headD []).length ∧ st.use_ae = true) ∧
      st' = fitErrState co st X := by
  unfold fit at h
  cases hX : check_array X with
  | error e =>
    rw [hX] at h
    simp only [Prod.mk.injEq] at h
    exact absurd (Option.some.inj h.2) (check_array_error_ne X e hX)
  | ok X1 =>
    have hX1 : X1 = X := check_array_ok_elim _ _ hX
    subst hX1
    rw [hX] at h
    simp only at h
    have hcore : fitCore co st X1 = (st', some neuronsMsg) := by
      cases hvd : st.validation_data with
      | none =>
        rw [hvd] at h
        simp only at h
        exact h
      | some p =>
        obtain ⟨XV0, yv⟩ := p
        rw [hvd] at h
        simp only at h
        cases hXV : check_array XV0 with
        | error e =>
          rw [hXV] at h
          simp only [Prod.mk.injEq] at h
          exact absurd (Option.some.inj h.2) (check_array_error_ne XV0 e hXV)
        | ok XV =>
          have hXV1 : XV = XV0 := check_array_ok_elim _ _ hXV
          subst hXV1
          rw [hXV] at h
          simp only at h
          have heta : { st with validation_data := some (XV, yv) } = st := by
            cases st
            simp_all
          rw [heta] at h
          exact h
    unfold fitCore at hcore
    split at hcore
    · next hcond =>
      refine ⟨rfl, hcond, ?_⟩
      injection hcore with h1 _
      exact h1.symm
    · simp at hcore

/-- The fields of the visible state after the hidden-width failure. -/
theorem fitErrState_fields (co : Collab) (st : DState) (X : List (List ℚ)) :
    (fitErrState co st X).n_samples_ = some X.length ∧
    (fitErrState co st X).n_features_ = some (X.headD []).length ∧
    (fitErrState co st X).scaler_ =
      (if st.preprocessing then some (co.scalerFit X) else st.scaler_) ∧
    (fitErrState co st X).model_ = st.model_ ∧
    (fitErrState co st X).history_ = st.history_ ∧
    (fitErrState co st X).decision_scores_ = st.decision_scores_ ∧
    (fitErrState co st X).c = st.c := by
  obtain ⟨c0, ua, hn, hn2, dr, vd, vs, pp, rs, sc, ns, nf, mo, hi, ds⟩ := st
  cases pp <;> simp [fitErrState, preprocessStage]

/-- C3 (amended): a fit call that fails the autoencoder/hidden-width check
does leave some fitted attributes visible in the estimator: the
sample and feature counts are already stored and, with preprocessing
enabled, so is the freshly fitted scaler; only the model, its history, the
decision scores and the center remain as they were before the call. -/
theorem fit_failure_visible_state (co : Collab) (st : DState)
    (X : List (List ℚ)) (st' : DState)
    (h : fit co st X = (st', some neuronsMsg)) :
    st'.n_samples_ = some X.length ∧
    st'.n_features_ = some (X.headD []).length ∧
    (st.preprocessing = true → st'.scaler_ = some (co.scalerFit X)) ∧
    st'.model_ = st.model_ ∧ st'.history_ = st.history_ ∧
    st'.decision_scores_ = st.decision_scores_ ∧ st'.c = st.c := by
  obtain ⟨hX, hcond, hst⟩ := fit_neurons_err_elim co st X st' h
  subst hst
  obtain ⟨e1, e2, e3, e4, e5, e6, e7⟩ := fitErrState_fields co st X
  exact ⟨e1, e2, fun hp => by rw [e3, if_pos hp], e4, e5, e6, e7⟩

/-- The estimator used for the hidden-width failure scenario: autoencoder
enabled with hidden widths [20, 15]. -/
def st3 : DState := stOfInit { use_ae := true, hidden_neurons := some [20, 15] }

/-- A one-row training matrix with 10 features. -/
def X3 : List (List ℚ) := [[0, 0, 0, 0, 0, 0, 0, 0, 0, 0]]

/-- C3 counterexample: on the concrete failing configuration [20, 15]
with 10 features, fit raises the hidden-width error yet the returned
visible state carries a scaler, a feature count and a sample count that
the pre-fit state did not have. -/
theorem fit_failure_visible_state_counterexample :
    st3.scaler_ = none ∧ st3.n_features_ = none ∧ st3.n_samples_ = none ∧
    (fit testCollab st3 X3).2 = some neuronsMsg ∧
    (fit testCollab st3 X3).1.scaler_ = some idScaler ∧
    (fit testCollab st3 X3).1.n_features_ = some 10 ∧
    (fit testCollab st3 X3).1.n_samples_ = some 1 := by
  refine ⟨?_, ?_, ?_, ?_, ?_, ?_, ?_⟩ <;> with_unfolding_all rfl

/-- Witness for the amended C3 on the same concrete failing
configuration. -/
theorem fit_failure_visible_state_witness :
    (fit testCollab st3 X3).1.n_samples_ = some 1 ∧
    (fit testCollab st3 X3).1.scaler_ = some (testCollab.scalerFit X3) :=
  ⟨(fit_failure_visible_state testCollab st3 X3 (fit testCollab st3 X3).1
      (by with_unfolding_all rfl)).1,
   (fit_failure_visible_state testCollab st3 X3 (fit testCollab st3 X3).1
      (by with_unfolding_all rfl)).2.2.1 (by with_unfolding_all rfl)⟩

/-- C4: when the input and the configured validation data pass shape
validation, fit raises the hidden-width configuration ValueError exactly
when the autoencoder flag is on and the minimum configured hidden width
strictly exceeds the input feature count; when it is raised, no network
has been constructed and no center resolved (model_, history_ and c are
unchanged); and with the autoencoder flag off the same widths are always
accepted (fit succeeds). -/
theorem fit_hidden_width_check (co : Collab) (st : DState)
    (X : List (List ℚ)) (hX : check_array X = Except.ok X)
    (hv : valChecked st) :
    ((fit co st X).2 = some neuronsMsg ↔
      (st.use_ae = true ∧ (X.headD []).length < npMin st.hidden_neurons)) ∧
    ((fit co st X).2 = some neuronsMsg →
      (fit co st X).1.model_ = st.model_ ∧
      (fit co st X).1.history_ = st.history_ ∧
      (fit co st X).1.c = st.c) ∧
    (st.use_ae = false → (fit co st X).2 = none) := by
  rw [fit_eq_fitCore co st X hX hv]
  unfold fitCore
  by_cases hc : npMin st.hidden_neurons > (X.headD []).length ∧ st.use_ae = true
  · rw [if_pos hc]
    obtain ⟨e1, e2, e3, e4, e5, e6, e7⟩ := fitErrState_fields co st X
    refine ⟨⟨fun _ => ⟨hc.2, hc.1⟩, fun _ => rfl⟩,
      fun _ => ⟨e4, e5, e7⟩, fun hf => ?_⟩
    rw [hf] at hc
    simp at hc
  · rw [if_neg hc]
    refine ⟨⟨fun hh => by simp at hh, fun hh => absurd ⟨hh.2, hh.1⟩ hc⟩,
      fun hh => by simp at hh, fun _ => rfl⟩

/-- Witness for C4: the concrete failing configuration (autoencoder on,
hidden widths [20, 15], feature count 10) raises the hidden-width
error. -/
theorem fit_hidden_width_check_witness :
    (fit testCollab st3 X3).2 = some neuronsMsg :=
  (fit_hidden_width_check testCollab st3 X3 (by with_unfolding_all rfl)
      (by with_unfolding_all exact trivial)).1.mpr
    ⟨by with_unfolding_all rfl, by with_unfolding_all decide⟩

/-- Characterization of a successful construction: the fields of the
state returned by DeepSVDD.__init__. -/
theorem init_ok_elim (p : Params) (st : DState)
    (h : DeepSVDD_init p = Except.ok st) :
    st.validation_size =
      (if p.validation_data.isSome then none else p.validation_size) ∧
    st.model_ = none ∧ st.history_ = none ∧
    st.validation_data = p.validation_data ∧ st.c = p.c ∧
    st.scaler_ = none ∧ st.decision_scores_ = none ∧
    st.use_ae = p.use_ae ∧ st.preprocessing = p.preprocessing ∧
    st.n_features_ = none := by
  unfold DeepSVDD_init at h
  split at h
  all_goals
    by_cases hcp : check_parameter p.dropout_rate 0 1 true false = true
  all_goals
    first
    | (rw [if_neg hcp] at h
       simp at h)
    | (rw [if_pos hcp] at h
       injection h with h1
       subst h1
       exact ⟨rfl, rfl, rfl, rfl, rfl, rfl, rfl, rfl, rfl, rfl⟩)

/-- C5: when construction succeeds, supplying a non-null validation
dataset clears the validation fraction (the dataset takes precedence),
while with a null validation dataset the supplied fraction is kept in the
effective configuration. -/
theorem init_validation_exclusivity (p : Params) (st : DState)
    (h : DeepSVDD_init p = Except.ok st) :
    (p.validation_data.isSome = true → st.validation_size = none) ∧
    (p.validation_data = none → st.validation_size = p.validation_size) := by
  obtain ⟨hvs, -⟩ := init_ok_elim p st h
  constructor
  · intro hs
    rw [hvs, if_pos hs]
  · intro hn
    rw [hvs, hn]
    simp

/-- The concrete parameters supplying both a validation dataset and the
default non-null validation fraction. -/
def p5 : Params := { validation_data := some ([[5]], [0]) }

/-- Witness for C5: with both a validation dataset and the default
validation fraction supplied, the constructed state has a null
fraction. -/
theorem init_validation_exclusivity_witness :
    (stOfInit p5).validation_size = none :=
  (init_validation_exclusivity p5 (stOfInit p5)
      (by with_unfolding_all rfl)).1 (by with_unfolding_all rfl)

/-- C6: construction succeeds exactly when dropout_rate lies in the
half-open interval [0, 1); in particular dropout_rate = 1 is rejected
with a configuration error and dropout_rate = 0 is accepted. -/
theorem init_dropout_range :
    (∀ p : Params, (∃ st, DeepSVDD_init p = Except.ok st) ↔
      (0 ≤ p.dropout_rate ∧ p.dropout_rate < 1)) ∧
    (∀ st, DeepSVDD_init { dropout_rate := 1 } ≠ Except.ok st) ∧
    (∃ st, DeepSVDD_init { dropout_rate := 0 } = Except.ok st) := by
  have hmain : ∀ p : Params, (∃ st, DeepSVDD_init p = Except.ok st) ↔
      (0 ≤ p.dropout_rate ∧ p.dropout_rate < 1) := by
    intro p
    constructor
    · rintro ⟨st, hst⟩
      unfold DeepSVDD_init at hst
      split at hst
      all_goals
        by_cases hcp : check_parameter p.dropout_rate 0 1 true false = true
      all_goals
        first
        | (rw [if_neg hcp] at hst
           simp at hst)
        | (unfold check_parameter at hcp
           simp at hcp
           exact hcp)
    · rintro ⟨h1, h2⟩
      have hcp : check_parameter p.dropout_rate 0 1 true false = true := by
        unfold check_parameter
        simp [h1, h2]
      cases hinit : DeepSVDD_init p with
      | ok st => exact ⟨st, rfl⟩
      | error e =>
        unfold DeepSVDD_init at hinit
        split at hinit
        all_goals
          rw [if_pos hcp] at hinit
          simp at hinit
  refine ⟨hmain, ?_, ?_⟩
  · intro st hst
    have hall := (hmain _).mp ⟨st, hst⟩
    norm_num at hall
  · exact (hmain _).mpr (by norm_num)

/-- Witness-style corollary of C6 applying the theorem at the accepted
boundary input. -/
theorem init_dropout_range_witness :
    ∃ st, DeepSVDD_init { dropout_rate := 0 } = Except.ok st :=
  init_dropout_range.2.2

/-- C7: calling decision_function on a freshly constructed, never fitted
estimator fails with the unfitted-state error for every input, even a
malformed one: the fitted-state check precedes input validation,
standardization and any forward pass. -/
theorem decision_function_unfitted (co : Collab) (p : Params) (st : DState)
    (X : List (List ℚ)) (h : DeepSVDD_init p = Except.ok st) :
    decision_function co st X = Except.error "NotFittedError" := by
  obtain ⟨-, hm, hh, -⟩ := init_ok_elim p st h
  unfold decision_function
  rw [hm, hh]

/-- Witness for C7: the default-constructed estimator rejects scoring of
an empty (malformed) input with the unfitted-state error. -/
theorem decision_function_unfitted_witness :
    decision_function testCollab st8 [] = Except.error "NotFittedError" :=
  decision_function_unfitted testCollab {} st8 [] (by with_unfolding_all rfl)

/-- The order-sensitive trained model used in the reproducibility
analysis: training yields a constant scorer equal to the first entry of
the first training row seen. -/
def train8 : List (List ℚ) → List ℚ → ℚ := fun Xn _ => (Xn.headD []).headD 0

/-- First run: the numpy shuffle drawn happened to leave the rows in
place. -/
def co8a : Collab := { testCollab with train := train8 }

/-- Second run with the same TensorFlow seed: identical scaler,
center-pass and training functions, but the numpy shuffle drawn this time
reversed the rows. -/
def co8b : Collab :=
  { testCollab with train := train8, shuffle := fun X => X.reverse }

/-- C8 counterexample: two fit runs on the same configuration, input and
TensorFlow-seeded collaborators, differing only in the draw of the
unseeded process-global numpy shuffle, produce different fitted scores:
the pre-training row shuffling is not controlled by random_state. -/
theorem fit_seed_reproducibility_counterexample :
    co8a.train = co8b.train ∧ co8a.centerPredict = co8b.centerPredict ∧
    co8a.scalerFit = co8b.scalerFit ∧
    co8a.rowTransform = co8b.rowTransform ∧
    (fit co8a st8 X8).2 = none ∧ (fit co8b st8 X8).2 = none ∧
    (fit co8a st8 X8).1.decision_scores_ = some [1, 1] ∧
    (fit co8b st8 X8).1.decision_scores_ = some [3, 3] ∧
    ((some [1, 1] : Option (List ℚ)) ≠ some [3, 3]) := by
  refine ⟨rfl, rfl, rfl, rfl, ?_, ?_, ?_, ?_, ?_⟩ <;> with_unfolding_all decide

theorem fitErrState_collab (co1 co2 : Collab) (st : DState)
    (X : List (List ℚ)) (h1 : co1.scalerFit = co2.scalerFit)
    (h2 : co1.rowTransform = co2.rowTransform) :
    fitErrState co1 st X = fitErrState co2 st X := by
  obtain ⟨sf1, rt1, sh1, cp1, tr1⟩ := co1
  obtain ⟨sf2, rt2, sh2, cp2, tr2⟩ := co2
  simp only at h1 h2
  subst h1
  subst h2
  obtain ⟨c0, ua, hn, hn2, dr, vd, vs, pp, rs, sc, ns, nf, mo, hi, ds⟩ := st
  cases pp <;> simp [fitErrState, preprocessStage]

theorem fitSuccState_shuffle_free (co1 co2 : Collab) (st : DState)
    (X : List (List ℚ)) (h1 : co1.scalerFit = co2.scalerFit)
    (h2 : co1.rowTransform = co2.rowTransform)
    (h3 : co1.centerPredict = co2.centerPredict)
    (h4 : co1.train = co2.train) (hvs : st.validation_size = none) :
    fitSuccState co1 st X = fitSuccState co2 st X := by
  obtain ⟨sf1, rt1, sh1, cp1, tr1⟩ := co1
  obtain ⟨sf2, rt2, sh2, cp2, tr2⟩ := co2
  simp only at h1 h2 h3 h4
  subst h1
  subst h2
  subst h3
  subst h4
  obtain ⟨c0, ua, hn, hn2, dr, vd, vs, pp, rs, sc, ns, nf, mo, hi, ds⟩ := st
  simp only at hvs
  subst hvs
  cases pp <;> cases c0 <;>
    simp [fitSuccState, preprocessStage, shuffleStage, centerStage,
      trainStage]

theorem fitCore_shuffle_free (co1 co2 : Collab) (st : DState)
    (X : List (List ℚ)) (h1 : co1.scalerFit = co2.scalerFit)
    (h2 : co1.rowTransform = co2.rowTransform)
    (h3 : co1.centerPredict = co2.centerPredict)
    (h4 : co1.train = co2.train) (hvs : st.validation_size = none) :
    fitCore co1 st X = fitCore co2 st X := by
  unfold fitCore
  by_cases hc : npMin st.hidden_neurons > (X.headD []).length ∧
      st.use_ae = true
  · rw [if_pos hc, if_pos hc, fitErrState_collab co1 co2 st X h1 h2]
  · rw [if_neg hc, if_neg hc,
      fitSuccState_shuffle_free co1 co2 st X h1 h2 h3 h4 hvs]

theorem fit_shuffle_free (co1 co2 : Collab) (st : DState)
    (X : List (List ℚ)) (h1 : co1.scalerFit = co2.scalerFit)
    (h2 : co1.rowTransform = co2.rowTransform)
    (h3 : co1.centerPredict = co2.centerPredict)
    (h4 : co1.train = co2.train) (hvs : st.validation_size = none) :
    fit co1 st X = fit co2 st X := by
  unfold fit
  cases hX : check_array X with
  | error e => rfl
  | ok X1 =>
    simp only
    cases hvd : st.validation_data with
    | none =>
      simp only
      exact fitCore_shuffle_free co1 co2 st X1 h1 h2 h3 h4 hvs
    | some p =>
      obtain ⟨XV0, yv⟩ := p
      simp only
      cases hXV : check_array XV0 with
      | error e => rfl
      | ok XV =>
        simp only
        exact fitCore_shuffle_free co1 co2
          { st with validation_data := some (XV, yv) } X1 h1 h2 h3 h4
          (by cases st; exact hvs)

/-- C8 (amended): with a fixed non-null seed the TensorFlow-driven
randomness (weight initialization, center pass, training) is the same
across runs, but the pre-training row shuffle is drawn from the unseeded
process-global numpy generator, which random_state does not control; two
fit runs on the same configuration and input are guaranteed to produce
identical results (fitted scores included) when the two shuffle draws
coincide, and in particular always when no shuffle happens because
validation_size is null. -/
theorem fit_seed_reproducibility (co1 co2 : Collab) (st : DState)
    (X : List (List ℚ)) (h1 : co1.scalerFit = co2.scalerFit)
    (h2 : co1.rowTransform = co2.rowTransform)
    (h3 : co1.centerPredict = co2.centerPredict)
    (h4 : co1.train = co2.train)
    (h5 : co1.shuffle = co2.shuffle ∨ st.validation_size = none) :
    fit co1 st X = fit co2 st X := by
  rcases h5 with h5 | h5
  · obtain ⟨sf1, rt1, sh1, cp1, tr1⟩ := co1
    obtain ⟨sf2, rt2, sh2, cp2, tr2⟩ := co2
    simp only at h1 h2 h3 h4 h5
    subst h1
    subst h2
    subst h3
    subst h4
    subst h5
    rfl
  · exact fit_shuffle_free co1 co2 st X h1 h2 h3 h4 h5

/-- An estimator constructed with a null validation fraction. -/
def st9 : DState := stOfInit { validation_size := none }

/-- Witness for the amended C8: the two same-seed runs coincide when no
shuffle occurs. -/
theorem fit_seed_reproducibility_witness :
    fit co8a st9 X8 = fit co8b st9 X8 :=
  fit_seed_reproducibility co8a co8b st9 X8 rfl rfl rfl rfl
    (Or.inr (by with_unfolding_all rfl))

/-- fitCore never touches an already-resolved center. -/
theorem fitCore_c_preserved (co : Collab) (st : DState)
    (X : List (List ℚ)) (hc : st.c.isSome = true) :
    (fitCore co st X).1.c = st.c := by
  unfold fitCore
  by_cases hcond : npMin st.hidden_neurons > (X.headD []).length ∧
      st.use_ae = true
  · rw [if_pos hcond]
    exact (fitErrState_fields co st X).2.2.2.2.2.2
  · rw [if_neg hcond]
    show (fitSuccState co st X).c = st.c
    rw [fitSuccState_c]
    cases hcv : st.c with
    | none => rw [hcv] at hc; simp at hc
    | some cv => rfl

/-- fit never touches an already-resolved center, whatever the outcome of
the call. -/
theorem fit_c_preserved (co : Collab) (st : DState) (X : List (List ℚ))
    (hc : st.c.isSome = true) : (fit co st X).1.c = st.c := by
  unfold fit
  cases hX : check_array X with
  | error e => rfl
  | ok X1 =>
    simp only
    cases hvd : st.validation_data with
    | none =>
      simp only
      exact fitCore_c_preserved co st X1 hc
    | some p =>
      obtain ⟨XV0, yv⟩ := p
      simp only
      cases hXV : check_array XV0 with
      | error e => rfl
      | ok XV =>
        simp only
        have := fitCore_c_preserved co
          { st with validation_data := some (XV, yv) } X1
          (by cases st; exact hc)
        rw [this]

/-- C9: when the estimator is constructed with the center unset, a
successful fit stores the resolved center into the field c (the clamped
mean embedding of the center pass over the training matrix of this fit), so
that it is non-null afterwards, and every subsequent fit call, with any
collaborators and any input, finds it non-null, skips center
re-estimation entirely and leaves the stored center unchanged. -/
theorem fit_center_stored_and_reused (co : Collab) (st : DState)
    (X : List (List ℚ)) (st' : DState) (h0 : st.c = none)
    (h : fit co st X = (st', none)) :
    st'.c = some (init_c co.centerPredict (fitXn co st X) (1/10)) ∧
    st'.c.isSome = true ∧
    ∀ (co2 : Collab) (X2 : List (List ℚ)),
      (fit co2 st' X2).1.c = st'.c := by
  obtain ⟨hX, hv, hcore⟩ := fit_ok_elim co st X st' h
  obtain ⟨hcond, hsucc⟩ := fitCore_ok_elim co st X st' hcore
  have hceq : st'.c = some (init_c co.centerPredict (fitXn co st X) (1/10)) := by
    rw [hsucc, fitSuccState_c, h0]
  have hcs : st'.c.isSome = true := by
    rw [hceq]
    rfl
  exact ⟨hceq, hcs, fun co2 X2 => fit_c_preserved co2 st' X2 hcs⟩

/-- Witness for C9 on the concrete default-constructed estimator. -/
theorem fit_center_stored_and_reused_witness :
    stF2.c = some (init_c testCollab.centerPredict
      (fitXn testCollab st8 X8) (1/10)) ∧
    stF2.c.isSome = true ∧
    ∀ (co2 : Collab) (X2 : List (List ℚ)),
      (fit co2 stF2 X2).1.c = stF2.c :=
  fit_center_stored_and_reused testCollab st8 X8 stF2
    (by with_unfolding_all rfl) (by with_unfolding_all rfl)

/-- One fit step of the validation-data overwrite: with preprocessing on
and a validation dataset configured, a successful fit leaves the
standardized copy in the field and keeps preprocessing on. -/
theorem fit_val_step (co : Collab) (st : DState) (X V : List (List ℚ))
    (y : List ℚ) (st' : DState) (hpre : st.preprocessing = true)
    (hvd : st.validation_data = some (V, y))
    (h : fit co st X = (st', none)) :
    st'.validation_data =
      some (V.map (co.rowTransform (co.scalerFit X)), y) ∧
    st'.preprocessing = true := by
  obtain ⟨hX, hv, hcore⟩ := fit_ok_elim co st X st' h
  obtain ⟨hcond, hsucc⟩ := fitCore_ok_elim co st X st' hcore
  constructor
  · rw [hsucc, fitSuccState_validation_data, hpre, hvd]
    simp
  · rw [hsucc, fitSuccState_preprocessing, hpre]

/-- C10: fit does not leave the validation_data field unchanged: with
preprocessing enabled, a successful fit overwrites it with the validated,
standardized copy of the supplied validation features, and a subsequent
successful fit therefore validates and standardizes the
already-standardized data again with its own freshly fitted scaler,
rather than the originally supplied validation set. -/
theorem fit_validation_data_overwritten (co : Collab) (st : DState)
    (X V : List (List ℚ)) (y : List ℚ) (st' : DState)
    (hpre : st.preprocessing = true)
    (hvd : st.validation_data = some (V, y))
    (h : fit co st X = (st', none)) :
    st'.validation_data =
      some (V.map (co.rowTransform (co.scalerFit X)), y) ∧
    ∀ (co2 : Collab) (X2 : List (List ℚ)) (st2 : DState),
      fit co2 st' X2 = (st2, none) →
      st2.validation_data =
        some ((V.map (co.rowTransform (co.scalerFit X))).map
          (co2.rowTransform (co2.scalerFit X2)), y) := by
  obtain ⟨hv1, hp1⟩ := fit_val_step co st X V y st' hpre hvd h
  exact ⟨hv1, fun co2 X2 st2 h2 =>
    (fit_val_step co2 st' X2 _ y st2 hp1 hv1 h2).1⟩

/-- The state produced by the concrete fit call with a supplied
validation dataset. -/
def stF10 : DState := (fit testCollab (stOfInit p5) X8).1

/-- Witness for C10: after fitting with validation set [[5]], the field
holds the standardized copy. -/
theorem fit_validation_data_overwritten_witness :
    stF10.validation_data =
      some ([[5]].map (testCollab.rowTransform (testCollab.scalerFit X8)),
        [0]) :=
  (fit_validation_data_overwritten testCollab (stOfInit p5) X8 [[5]] [0]
    stF10 (by with_unfolding_all rfl) (by with_unfolding_all rfl)
    (by with_unfolding_all rfl)).1
